import Mathlib

/-!
Verification development for the CARLA → ROS2 sensor republishing bridge
(`carla_simulation/vehicle_info_publisher.py` and its call sites).

The Python program is shallowly embedded: ROS message objects become Lean
structures over `ℚ` (numeric message fields) and `String`/`Nat` (frame ids
and stamps); the node's mutable attributes become a `BridgeState` record and
each method a state-passing function translated line by line from the
source.  Python attribute mutation through an alias (the LiDAR callback
rebinds `self.header` to the incoming message's header object and then
mutates its `frame_id`) is rendered at value level: both the shared header
and the stored message end up with the mutated header value.
-/

namespace CarlaBridge

/-- ROS `std_msgs/Header`: a stamp (modelled as an abstract tick count) and a
coordinate-frame identifier. -/
structure Header where
  stamp : Nat
  frame_id : String
  deriving DecidableEq

/-- ROS `geometry_msgs/Vector3` with exact rational coordinates. -/
structure Vector3 where
  x : ℚ
  y : ℚ
  z : ℚ
  deriving DecidableEq

/-- ROS `geometry_msgs/Quaternion` (default-constructed value has `w = 1`). -/
structure Quaternion where
  x : ℚ
  y : ℚ
  z : ℚ
  w : ℚ
  deriving DecidableEq

/-- CARLA rotation: roll, pitch, yaw in degrees. -/
structure Rotation where
  roll : ℚ
  pitch : ℚ
  yaw : ℚ
  deriving DecidableEq

/-- ROS `geometry_msgs/Twist`: linear and angular velocity vectors. -/
structure Twist where
  linear : Vector3
  angular : Vector3
  deriving DecidableEq

/-- ROS `sensor_msgs/PointCloud2`: a header plus the point buffer, which the
bridge never inspects and which is therefore modelled as an opaque byte
list. -/
structure PointCloud2 where
  header : Header
  data : List Nat
  deriving DecidableEq

/-- ROS `sensor_msgs/NavSatFix` (the fields the program and spec name). -/
structure NavSatFix where
  header : Header
  latitude : ℚ
  longitude : ℚ
  altitude : ℚ
  deriving DecidableEq

/-- ROS `sensor_msgs/Imu` (the fields the program and spec name). -/
structure Imu where
  header : Header
  orientation : Quaternion
  angular_velocity : Vector3
  linear_acceleration : Vector3
  deriving DecidableEq

/-- ROS `nav_msgs/Odometry`, restricted to the fields the program writes:
`header`, `pose.pose` and `twist.twist`.  The source assigns the pseudo
position `Vector3` directly into `pose.pose` (dynamic typing), so the field
is a `Vector3` here, exactly as stored. -/
structure Odometry where
  header : Header
  pose_pose : Vector3
  twist_twist : Twist
  deriving DecidableEq

/-- `sensor_driver_msgs/GpswithHeading`, restricted to the fields written by
`get_gps_data`: header, the embedded gps fix, roll, pitch, heading. -/
structure GpswithHeading where
  header : Header
  gps : NavSatFix
  roll : ℚ
  pitch : ℚ
  heading : ℚ
  deriving DecidableEq

/-- `sensor_driver_msgs/OdometrywithGps`, restricted to the fields written by
`get_odom_data`: header, gps fix, odometry. -/
structure OdometrywithGps where
  header : Header
  gps : NavSatFix
  odometry : Odometry
  deriving DecidableEq

/-- `sensor_driver_msgs/InsVelocity`, fields written by `get_velocity_data`. -/
structure InsVelocity where
  header : Header
  angular_velocity : Vector3
  linear_velocity : Vector3
  deriving DecidableEq

/-- ROS `geometry_msgs/Vector3Stamped`, fields written by
`get_position_data`. -/
structure Vector3Stamped where
  header : Header
  vector : Vector3
  deriving DecidableEq

/-- The result of the four CARLA queries made by `update_vehicle_state_info`
(`get_velocity`, `get_angular_velocity`, `get_transform().location`,
`get_transform().rotation`), polled once per publish cycle. -/
structure VehicleKinematics where
  velocity : Vector3
  angular_velocity : Vector3
  location : Vector3
  rotation : Rotation
  deriving DecidableEq

/-! ## Configuration and construction (`check_config`, `__init__`) -/

/-- A configuration value as found in the JSON config: a number or a
string.  Python truthiness of these two shapes is what
`check_config`'s `if not config.get(topic)` tests. -/
inductive ConfigValue where
  | num (q : ℚ)
  | str (s : String)
  deriving DecidableEq

/-- Python truthiness of a configuration value: zero and the empty string
are falsy, everything else (including negative numbers) is truthy. -/
def ConfigValue.truthy : ConfigValue → Bool
  | .num q => decide (q ≠ 0)
  | .str s => decide (s ≠ "")

/-- A configuration dictionary: an association list of keys to values. -/
def Config : Type := List (String × ConfigValue)

/-- `config.get(key)`: `some` value when present, `none` (Python `None`)
when the key is absent. -/
def configGet (c : Config) (k : String) : Option ConfigValue :=
  (c.find? (fun p => p.1 == k)).map (fun p => p.2)

/-- The required keys, in the order listed in `check_config`
(vehicle_info_publisher.py lines 21-32). -/
def required_topics : List String :=
  ["loop_rate",
   "gnss_sub_topic",
   "imu_sub_topic",
   "lidar_sub_topic",
   "lidar_pub_topic",
   "gps_pub_topic",
   "odom_pub_topic",
   "velocity_pub_topic",
   "imu_pub_topic",
   "position_pub_topic"]

/-- `check_config` (lines 18-40): starts with `flag = True`, clears the flag
(and logs an error) for every required key whose looked-up value is falsy
(`if not config.get(topic)`), and returns the flag.  Equivalently: all
required keys are present with truthy values.  It returns a `Bool` and
raises nothing. -/
def check_config (c : Config) : Bool :=
  required_topics.all (fun t =>
    match configGet c t with
    | none => false
    | some v => v.truthy)

/-- One resource-creating step performed by `VehicleInfoPublisher.__init__`. -/
inductive InitStep where
  | subscription (topic : String)
  | publisher (topic : String)
  | timerStart
  deriving DecidableEq

/-- The three subscription topics, in the order `__init__` creates them
(lines 72-91): GNSS, IMU, LiDAR. -/
def subTopicKeys : List String :=
  ["gnss_sub_topic", "imu_sub_topic", "lidar_sub_topic"]

/-- The six publisher topics, in the order `__init__` creates them
(lines 94-128). -/
def pubTopicKeys : List String :=
  ["lidar_pub_topic", "gps_pub_topic", "odom_pub_topic",
   "velocity_pub_topic", "imu_pub_topic", "position_pub_topic"]

/-- Whether a looked-up config value is accepted by the messaging library as
a topic name: it must be a present, non-empty string (`create_subscription`
/ `create_publisher` reject `None` and invalid topic names). -/
def validTopicValue : Option ConfigValue → Bool
  | some (.str s) => decide (s ≠ "")
  | _ => false

/-- Runs one resource-creation step per key, in order, stopping at the
first key whose value the library rejects.  Returns the steps actually
performed and whether the whole list succeeded. -/
def createEntities (c : Config) (mk : String → InitStep) :
    List String → List InitStep × Bool
  | [] => ([], true)
  | t :: ts =>
    if validTopicValue (configGet c t) then
      let rest := createEntities c mk ts
      (mk t :: rest.1, rest.2)
    else
      ([], false)

/-- `VehicleInfoPublisher.__init__` (lines 63-134) as a trace of the
resource-creating calls it issues, in source order: the three
subscriptions, then the six publishers, then the timer.  The constructor
performs no validation of its own and never raises any configuration
error; `check_config` is not called.  A missing or invalid topic value
makes the corresponding library call fail at that point — after every
earlier entity was already created.  The timer call requires a present
numeric `loop_rate` (the library rejects `None`); the numeric sign is not
examined here, matching the absence of any range check in the source.
Returns the performed steps and whether construction completed. -/
def vehicleInfoPublisherInit (c : Config) : List InitStep × Bool :=
  let subs := createEntities c InitStep.subscription subTopicKeys
  if subs.2 then
    let pubs := createEntities c InitStep.publisher pubTopicKeys
    if pubs.2 then
      match configGet c "loop_rate" with
      | some (.num _) => (subs.1 ++ pubs.1 ++ [InitStep.timerStart], true)
      | _ => (subs.1 ++ pubs.1, false)
    else
      (subs.1 ++ pubs.1, false)
  else
    (subs.1, false)

/-! ## The node's mutable state and its methods -/

/-- The mutable attributes of `VehicleInfoPublisher` (lines 43-61): the
samples received from CARLA, the six outgoing message objects, and the
pseudo sensor values derived from polled kinematics.

In the source `pseudo_heading` is initialised to `None` and is assigned a
`carla.Rotation` by `update_vehicle_state_info` before any read (every
publish cycle runs `update_vehicle_state_info` first); it is modelled as a
plain `Rotation` with a zero initial value. -/
structure BridgeState where
  header : Header
  carla_lidar_data : PointCloud2
  carla_gnss_data : NavSatFix
  carla_imu_data : Imu
  lidar_data : PointCloud2
  imu_data : Imu
  position_data : Vector3Stamped
  gps_data : GpswithHeading
  odom_data : OdometrywithGps
  velocity_data : InsVelocity
  pseudo_odom : Odometry
  pseudo_position : Vector3
  pseudo_velocity : Twist
  pseudo_heading : Rotation
  deriving DecidableEq

/-- A default-constructed `std_msgs/Header`: zero stamp, empty frame id. -/
def defaultHeader : Header := { stamp := 0, frame_id := "" }

/-- The zero vector, the default of `geometry_msgs/Vector3`. -/
def zeroVector3 : Vector3 := { x := 0, y := 0, z := 0 }

/-- Default-constructed `geometry_msgs/Quaternion` (`w = 1`). -/
def defaultQuaternion : Quaternion := { x := 0, y := 0, z := 0, w := 1 }

/-- The state holding the default-constructed message objects of
lines 43-61, before any callback or publish cycle has run. -/
def initialState : BridgeState where
  header := defaultHeader
  carla_lidar_data := { header := defaultHeader, data := [] }
  carla_gnss_data :=
    { header := defaultHeader, latitude := 0, longitude := 0, altitude := 0 }
  carla_imu_data :=
    { header := defaultHeader, orientation := defaultQuaternion,
      angular_velocity := zeroVector3, linear_acceleration := zeroVector3 }
  lidar_data := { header := defaultHeader, data := [] }
  imu_data :=
    { header := defaultHeader, orientation := defaultQuaternion,
      angular_velocity := zeroVector3, linear_acceleration := zeroVector3 }
  position_data := { header := defaultHeader, vector := zeroVector3 }
  gps_data :=
    { header := defaultHeader,
      gps := { header := defaultHeader, latitude := 0, longitude := 0,
               altitude := 0 },
      roll := 0, pitch := 0, heading := 0 }
  odom_data :=
    { header := defaultHeader,
      gps := { header := defaultHeader, latitude := 0, longitude := 0,
               altitude := 0 },
      odometry := { header := defaultHeader, pose_pose := zeroVector3,
                    twist_twist := { linear := zeroVector3,
                                     angular := zeroVector3 } } }
  velocity_data :=
    { header := defaultHeader, angular_velocity := zeroVector3,
      linear_velocity := zeroVector3 }
  pseudo_odom :=
    { header := defaultHeader, pose_pose := zeroVector3,
      twist_twist := { linear := zeroVector3, angular := zeroVector3 } }
  pseudo_position := zeroVector3
  pseudo_velocity := { linear := zeroVector3, angular := zeroVector3 }
  pseudo_heading := { roll := 0, pitch := 0, yaw := 0 }

/-! ### Converters (`carla_data_to_ros`)

The module `carla_data_to_ros` belongs to this repository but is not under
`src/`; only its call sites are.  Its two converters are modelled from the
spec. -/

/-- Modelled from the spec: `carla_data_to_ros.carla_location_to_ros_vector3`
is missing from `src/`; §4.1 specifies `positionToVector(location) ->
vector3` as a direct field copy with no axis flip. -/
def carla_location_to_ros_vector3 (loc : Vector3) : Vector3 := loc

/-- Modelled from the spec: `carla_data_to_ros.carla_velocity_to_ros_twist`
is missing from `src/`; §4.1 specifies `kinematicsToTwist(linearVelocity,
angularVelocity) -> twist` as a direct field copy into a
`{linear, angular}` pair. -/
def carla_velocity_to_ros_twist (v av : Vector3) : Twist :=
  { linear := v, angular := av }

/-! ### Subscription callbacks (lines 188-202) -/

/-- `update_carla_lidar_data` (lines 189-194): rebinds `self.header` to the
incoming message's header object and sets that object's `frame_id` to
`"odom"`, then stores the message.  Because `self.header` aliases
`carla_lidar_data.header`, the stored message (and the caller's message
object) carries the mutated header. -/
def update_carla_lidar_data (s : BridgeState) (m : PointCloud2) : BridgeState :=
  let h := { m.header with frame_id := "odom" }
  { s with header := h, carla_lidar_data := { m with header := h } }

/-- `update_carla_gnss_data` (lines 196-198): stores the message, nothing
else. -/
def update_carla_gnss_data (s : BridgeState) (m : NavSatFix) : BridgeState :=
  { s with carla_gnss_data := m }

/-- `update_carla_imu_data` (lines 200-202): stores the message, nothing
else. -/
def update_carla_imu_data (s : BridgeState) (m : Imu) : BridgeState :=
  { s with carla_imu_data := m }

/-- The value of the received LiDAR message object after the handler
returns: in the source the handler mutates the message's header in place
(`self.header.frame_id = "odom"` through the alias), so the caller's
object has `frame_id = "odom"` afterwards; all other fields are
untouched. -/
def lidarMessageAfterHandler (m : PointCloud2) : PointCloud2 :=
  { m with header := { m.header with frame_id := "odom" } }

/-! ### The publish cycle (lines 152-235) -/

/-- `update_vehicle_state_info` (lines 170-186): polls the vehicle
kinematics, converts them (via the `carla_data_to_ros` converters) into
the pseudo sensor fields, and refreshes `pseudo_odom`'s header, pose and
twist in place. -/
def update_vehicle_state_info (k : VehicleKinematics) (s : BridgeState) :
    BridgeState :=
  let pos := carla_location_to_ros_vector3 k.location
  let vel := carla_velocity_to_ros_twist k.velocity k.angular_velocity
  let po := s.pseudo_odom
  let po := { po with header := s.header }
  let po := { po with pose_pose := pos }
  let po := { po with twist_twist := vel }
  { s with
    pseudo_heading := k.rotation
    pseudo_position := pos
    pseudo_velocity := vel
    pseudo_odom := po }

/-- `get_lidar_data` (lines 205-207): rebinds `lidar_data` to the stored
CARLA LiDAR message. -/
def get_lidar_data (s : BridgeState) : BridgeState :=
  { s with lidar_data := s.carla_lidar_data }

/-- `get_gps_data` (lines 209-217), field assignments in source order: the
GPS output's header is the GNSS sample's header, its fix the GNSS sample,
roll and pitch come from the polled rotation, and the heading is the polled
yaw minus 90 degrees. -/
def get_gps_data (s : BridgeState) : BridgeState :=
  let g := s.gps_data
  let g := { g with header := s.carla_gnss_data.header }
  let g := { g with gps := s.carla_gnss_data }
  let g := { g with roll := s.pseudo_heading.roll }
  let g := { g with pitch := s.pseudo_heading.pitch }
  let g := { g with heading := s.pseudo_heading.yaw - 90 }
  { s with gps_data := g }

/-- `get_odom_data` (lines 219-222): shared header, GNSS sample,
pseudo odometry. -/
def get_odom_data (s : BridgeState) : BridgeState :=
  let o := s.odom_data
  let o := { o with header := s.header }
  let o := { o with gps := s.carla_gnss_data }
  let o := { o with odometry := s.pseudo_odom }
  { s with odom_data := o }

/-- `get_velocity_data` (lines 224-228), preserving the source's duplicate
assignment: `angular_velocity` is first set from the stored IMU sample and
then overwritten with the kinematics-derived `pseudo_velocity.angular`
(last assignment wins). -/
def get_velocity_data (s : BridgeState) : BridgeState :=
  let v := s.velocity_data
  let v := { v with header := s.header }
  let v := { v with angular_velocity := s.carla_imu_data.angular_velocity }
  let v := { v with linear_velocity := s.pseudo_velocity.linear }
  let v := { v with angular_velocity := s.pseudo_velocity.angular }
  { s with velocity_data := v }

/-- `get_imu_data` (lines 230-231): rebinds `imu_data` to the stored CARLA
IMU message. -/
def get_imu_data (s : BridgeState) : BridgeState :=
  { s with imu_data := s.carla_imu_data }

/-- `get_position_data` (lines 233-235): shared header plus the pseudo
position vector. -/
def get_position_data (s : BridgeState) : BridgeState :=
  let p := s.position_data
  let p := { p with header := s.header }
  let p := { p with vector := s.pseudo_position }
  { s with position_data := p }

/-- The six messages handed to the six `publish` calls of one cycle
(lines 161-166). -/
structure OutputBatch where
  lidar : PointCloud2
  gps : GpswithHeading
  odom : OdometrywithGps
  velocity : InsVelocity
  imu : Imu
  position : Vector3Stamped
  deriving DecidableEq

/-- `publish_vehicle_data` (lines 152-167): refreshes the polled kinematics,
runs the six builders in source order, then publishes the six message
attributes.  Returns the post-cycle state together with the published
batch. -/
def publish_vehicle_data (k : VehicleKinematics) (s : BridgeState) :
    BridgeState × OutputBatch :=
  let s := update_vehicle_state_info k s
  let s := get_lidar_data s
  let s := get_gps_data s
  let s := get_odom_data s
  let s := get_velocity_data s
  let s := get_imu_data s
  let s := get_position_data s
  (s, { lidar := s.lidar_data, gps := s.gps_data, odom := s.odom_data,
        velocity := s.velocity_data, imu := s.imu_data,
        position := s.position_data })

/-! ### Input-event sequences (for the state-store properties) -/

/-- One delivery to one of the three subscription handlers. -/
inductive InputEvent where
  | lidar (m : PointCloud2)
  | gnss (m : NavSatFix)
  | imu (m : Imu)
  deriving DecidableEq

/-- Dispatches one delivered message to its handler. -/
def applyEvent (s : BridgeState) : InputEvent → BridgeState
  | .lidar m => update_carla_lidar_data s m
  | .gnss m => update_carla_gnss_data s m
  | .imu m => update_carla_imu_data s m

/-- Runs a finite sequence of deliveries, oldest first. -/
def runEvents : BridgeState → List InputEvent → BridgeState
  | s, [] => s
  | s, e :: es => runEvents (applyEvent s e) es

/-- The payload of the most recent LiDAR delivery in a sequence, if any. -/
def lastLidarWrite : List InputEvent → Option PointCloud2
  | [] => none
  | e :: es =>
    match lastLidarWrite es with
    | some m => some m
    | none => match e with
              | .lidar m => some m
              | _ => none

/-- The payload of the most recent GNSS delivery in a sequence, if any. -/
def lastGnssWrite : List InputEvent → Option NavSatFix
  | [] => none
  | e :: es =>
    match lastGnssWrite es with
    | some m => some m
    | none => match e with
              | .gnss m => some m
              | _ => none

/-- The payload of the most recent IMU delivery in a sequence, if any. -/
def lastImuWrite : List InputEvent → Option Imu
  | [] => none
  | e :: es =>
    match lastImuWrite es with
    | some m => some m
    | none => match e with
              | .imu m => some m
              | _ => none

/-! ## Handlers on possibly-malformed input

Python message objects may arrive missing expected attributes; an absent
attribute is modelled as `none` and an attribute read on `none` as the
`AttributeError` the interpreter would raise. -/

/-- A GNSS message whose sub-fields may be absent. -/
structure NavSatFixRaw where
  header : Option Header
  latitude : Option ℚ
  longitude : Option ℚ
  altitude : Option ℚ
  deriving DecidableEq

/-- An IMU message whose sub-fields may be absent. -/
structure ImuRaw where
  header : Option Header
  orientation : Option Quaternion
  angular_velocity : Option Vector3
  linear_acceleration : Option Vector3
  deriving DecidableEq

/-- A point-cloud message whose header may be absent. -/
structure PointCloud2Raw where
  header : Option Header
  data : List Nat
  deriving DecidableEq

/-- `update_carla_gnss_data` on a possibly-malformed message: the handler
body (lines 196-198) reads no sub-field and performs no validation, so it
stores whatever arrives — including a malformed sample — unconditionally
over the prior value, and cannot raise.  (Its only other action is a
debug-level log.) -/
def update_carla_gnss_data_raw (stored m : NavSatFixRaw) :
    Except Unit NavSatFixRaw :=
  let _ := stored
  Except.ok m

/-- `update_carla_imu_data` on a possibly-malformed message: same shape as
the GNSS handler (lines 200-202) — unconditional store, no validation, no
possible exception. -/
def update_carla_imu_data_raw (stored m : ImuRaw) : Except Unit ImuRaw :=
  let _ := stored
  Except.ok m

/-- `update_carla_lidar_data` on a possibly-malformed message: line 190
reads `carla_lidar_data.header`, so a sample without a header makes the
handler raise `AttributeError` (modelled as `Except.error ()`); otherwise
it behaves as `update_carla_lidar_data`, returning the new shared header
and the stored (header-mutated) message. -/
def update_carla_lidar_data_raw (m : PointCloud2Raw) :
    Except Unit (Header × PointCloud2Raw) :=
  match m.header with
  | none => Except.error ()
  | some h =>
    let h := { h with frame_id := "odom" }
    Except.ok (h, { m with header := some h })

/-! ## Teardown (`cleanup`, lines 136-150)

`cleanup` is modelled over the node's resource handles.  An attribute that
`__init__` never got to assign is `none`; reading it raises
`AttributeError` (`Except.error ()`).  Each handle counts the library
calls made on it, so that duplicate cancel/destroy effects are visible. -/

/-- A timer handle counting `cancel()` calls. -/
structure TimerHandle where
  cancel_calls : Nat
  deriving DecidableEq

/-- A publisher handle counting `destroy()` calls. -/
structure PubHandle where
  destroy_calls : Nat
  deriving DecidableEq

/-- The resource attributes `cleanup` touches; `none` marks an attribute
never assigned because `__init__` failed before reaching it. -/
structure BridgeResources where
  timer : Option TimerHandle
  lidar_pub : Option PubHandle
  gps_pub : Option PubHandle
  odom_pub : Option PubHandle
  velocity_pub : Option PubHandle
  imu_pub : Option PubHandle
  position_pub : Option PubHandle
  deriving DecidableEq

/-- One `pub.destroy()` call. -/
def destroyPub (p : PubHandle) : PubHandle :=
  { p with destroy_calls := p.destroy_calls + 1 }

/-- One `timer.cancel()` call. -/
def cancelTimer (t : TimerHandle) : TimerHandle :=
  { t with cancel_calls := t.cancel_calls + 1 }

/-- `cleanup` (lines 136-150): cancels the timer only if the attribute
exists (`hasattr` guard), then builds the list of the six publisher
attributes — an `AttributeError` if any is missing, since they are read
unguarded — and calls `destroy()` on each.  Nothing marks the node as
already cleaned up, and the three subscriptions are never destroyed. -/
def cleanup (r : BridgeResources) : Except Unit BridgeResources :=
  let r := match r.timer with
           | some t => { r with timer := some (cancelTimer t) }
           | none => r
  match r.lidar_pub, r.gps_pub, r.odom_pub,
        r.velocity_pub, r.imu_pub, r.position_pub with
  | some a, some b, some c, some d, some e, some f =>
    Except.ok { r with
      lidar_pub := some (destroyPub a)
      gps_pub := some (destroyPub b)
      odom_pub := some (destroyPub c)
      velocity_pub := some (destroyPub d)
      imu_pub := some (destroyPub e)
      position_pub := some (destroyPub f) }
  | _, _, _, _, _, _ => Except.error ()

/-! ## Concrete fixtures used by the closed theorems below -/

/-- A LiDAR sample with stamp 7 and a sensor frame id. -/
def mLidar7 : PointCloud2 :=
  { header := { stamp := 7, frame_id := "lidar" }, data := [1, 2, 3] }

/-- A GNSS fix with stamp 5 and the spec scenario's coordinates. -/
def mGnss5 : NavSatFix :=
  { header := { stamp := 5, frame_id := "gps" },
    latitude := 1, longitude := 2, altitude := 3 }

/-- An IMU sample with stamp 9 and angular velocity (0, 0, 1). -/
def mImu9 : Imu :=
  { header := { stamp := 9, frame_id := "imu" },
    orientation := defaultQuaternion,
    angular_velocity := { x := 0, y := 0, z := 1 },
    linear_acceleration := zeroVector3 }

/-- The spec scenario's polled kinematics: position (10, 20, 30), yaw 90,
linear velocity (1, 0, 0), angular velocity (0, 0, 1/2). -/
def kSample : VehicleKinematics :=
  { velocity := { x := 1, y := 0, z := 0 },
    angular_velocity := { x := 0, y := 0, z := 1 / 2 },
    location := { x := 10, y := 20, z := 30 },
    rotation := { roll := 0, pitch := 0, yaw := 90 } }

/-- Kinematics with yaw 40 (heading −50), used to show output retention. -/
def kYaw40 : VehicleKinematics :=
  { velocity := { x := 1, y := 0, z := 0 },
    angular_velocity := { x := 0, y := 0, z := 1 },
    location := { x := 4, y := 5, z := 6 },
    rotation := { roll := 1, pitch := 2, yaw := 40 } }

/-- The state after delivering one LiDAR, one GNSS and one IMU sample with
three distinct stamps. -/
def sThree : BridgeState :=
  runEvents initialState
    [InputEvent.lidar mLidar7, InputEvent.gnss mGnss5, InputEvent.imu mImu9]

/-- A LiDAR sample whose frame id is not `"odom"`. -/
def mVelodyne : PointCloud2 :=
  { header := { stamp := 11, frame_id := "velodyne" }, data := [4, 5] }

/-- A LiDAR sample whose frame id is already `"odom"`. -/
def mOdomFrame : PointCloud2 :=
  { header := { stamp := 13, frame_id := "odom" }, data := [6] }

/-- A LiDAR sample with frame id `"base_link"`. -/
def mBase : PointCloud2 :=
  { header := { stamp := 3, frame_id := "base_link" }, data := [9] }

/-- A LiDAR sample with frame id `"lidar_top"`. -/
def mTop : PointCloud2 :=
  { header := { stamp := 2, frame_id := "lidar_top" }, data := [8, 8] }

/-- A state equal to `initialState` except for a previously built GPS
output (as if left over from an earlier cycle). -/
def sAltered : BridgeState :=
  { initialState with
    gps_data := { initialState.gps_data with heading := 42 } }

/-- A well-formed stored GNSS value (all sub-fields present). -/
def gnssPrior : NavSatFixRaw :=
  { header := some { stamp := 1, frame_id := "gps" },
    latitude := some 1, longitude := some 2, altitude := some 3 }

/-- A malformed inbound GNSS sample: every expected sub-field missing. -/
def gnssBad : NavSatFixRaw :=
  { header := none, latitude := none, longitude := none, altitude := none }

/-- A malformed inbound point cloud: no header attribute. -/
def pcNoHeader : PointCloud2Raw := { header := none, data := [1] }

/-- A fully constructed node's resources, no call made on any of them. -/
def rFull : BridgeResources :=
  { timer := some { cancel_calls := 0 },
    lidar_pub := some { destroy_calls := 0 },
    gps_pub := some { destroy_calls := 0 },
    odom_pub := some { destroy_calls := 0 },
    velocity_pub := some { destroy_calls := 0 },
    imu_pub := some { destroy_calls := 0 },
    position_pub := some { destroy_calls := 0 } }

/-- `rFull` after one `cleanup`: every handle touched exactly once. -/
def rOnce : BridgeResources :=
  { timer := some { cancel_calls := 1 },
    lidar_pub := some { destroy_calls := 1 },
    gps_pub := some { destroy_calls := 1 },
    odom_pub := some { destroy_calls := 1 },
    velocity_pub := some { destroy_calls := 1 },
    imu_pub := some { destroy_calls := 1 },
    position_pub := some { destroy_calls := 1 } }

/-- Resources of a node whose `__init__` failed after the timerless prefix:
the timer attribute exists, no publisher attribute does.  (Any state with a
missing publisher attribute behaves the same.) -/
def rHalfBuilt : BridgeResources :=
  { timer := some { cancel_calls := 0 },
    lidar_pub := none, gps_pub := none, odom_pub := none,
    velocity_pub := none, imu_pub := none, position_pub := none }

/-- A configuration with all ten required keys present and truthy, except
that `loop_rate` is negative (hence non-positive but truthy). -/
def cfgNegRate : Config :=
  [("loop_rate", ConfigValue.num (-1)),
   ("gnss_sub_topic", ConfigValue.str "carla/gnss"),
   ("imu_sub_topic", ConfigValue.str "carla/imu"),
   ("lidar_sub_topic", ConfigValue.str "carla/lidar"),
   ("lidar_pub_topic", ConfigValue.str "out/lidar"),
   ("gps_pub_topic", ConfigValue.str "out/gps"),
   ("odom_pub_topic", ConfigValue.str "out/odom"),
   ("velocity_pub_topic", ConfigValue.str "out/velocity"),
   ("imu_pub_topic", ConfigValue.str "out/imu"),
   ("position_pub_topic", ConfigValue.str "out/position")]

/-- A configuration lacking `gps_pub_topic` but holding every other
required key, with a positive `loop_rate`. -/
def cfgNoGpsPub : Config :=
  [("loop_rate", ConfigValue.num 1),
   ("gnss_sub_topic", ConfigValue.str "carla/gnss"),
   ("imu_sub_topic", ConfigValue.str "carla/imu"),
   ("lidar_sub_topic", ConfigValue.str "carla/lidar"),
   ("lidar_pub_topic", ConfigValue.str "out/lidar"),
   ("odom_pub_topic", ConfigValue.str "out/odom"),
   ("velocity_pub_topic", ConfigValue.str "out/velocity"),
   ("imu_pub_topic", ConfigValue.str "out/imu"),
   ("position_pub_topic", ConfigValue.str "out/position")]

/-- A fully valid configuration: all keys present, `loop_rate` positive. -/
def cfgFull : Config :=
  ("gps_pub_topic", ConfigValue.str "out/gps") :: cfgNoGpsPub

/-! ## Helper lemmas -/

/-- After a run of deliveries, the stored GNSS sample is the most recent
GNSS payload (the starting value when none was delivered). -/
theorem runEvents_gnss (es : List InputEvent) :
    ∀ s : BridgeState, (runEvents s es).carla_gnss_data
      = (lastGnssWrite es).getD s.carla_gnss_data := by
  induction es with
  | nil => intro s; rfl
  | cons e es ih =>
    intro s
    show (runEvents (applyEvent s e) es).carla_gnss_data = _
    rw [ih]
    cases h : lastGnssWrite es with
    | some m => simp [lastGnssWrite, h]
    | none =>
      cases e <;>
        simp [lastGnssWrite, h, applyEvent, update_carla_lidar_data,
          update_carla_gnss_data, update_carla_imu_data]

/-- After a run of deliveries, the stored IMU sample is the most recent IMU
payload (the starting value when none was delivered). -/
theorem runEvents_imu (es : List InputEvent) :
    ∀ s : BridgeState, (runEvents s es).carla_imu_data
      = (lastImuWrite es).getD s.carla_imu_data := by
  induction es with
  | nil => intro s; rfl
  | cons e es ih =>
    intro s
    show (runEvents (applyEvent s e) es).carla_imu_data = _
    rw [ih]
    cases h : lastImuWrite es with
    | some m => simp [lastImuWrite, h]
    | none =>
      cases e <;>
        simp [lastImuWrite, h, applyEvent, update_carla_lidar_data,
          update_carla_gnss_data, update_carla_imu_data]

/-- After a run of deliveries, the stored LiDAR sample is the most recent
LiDAR payload as mutated by its handler (the starting value when none was
delivered). -/
theorem runEvents_lidar (es : List InputEvent) :
    ∀ s : BridgeState, (runEvents s es).carla_lidar_data
      = ((lastLidarWrite es).map lidarMessageAfterHandler).getD
          s.carla_lidar_data := by
  induction es with
  | nil => intro s; rfl
  | cons e es ih =>
    intro s
    show (runEvents (applyEvent s e) es).carla_lidar_data = _
    rw [ih]
    cases h : lastLidarWrite es with
    | some m => simp [lastLidarWrite, h]
    | none =>
      cases e <;>
        simp [lastLidarWrite, h, applyEvent, update_carla_lidar_data,
          update_carla_gnss_data, update_carla_imu_data,
          lidarMessageAfterHandler]

/-- `createEntities` succeeds and creates one entity per key, in order,
whenever every key's value is library-acceptable. -/
theorem createEntities_all_valid (c : Config) (mk : String → InitStep) :
    ∀ ts : List String,
      (∀ t ∈ ts, validTopicValue (configGet c t) = true) →
      createEntities c mk ts = (ts.map mk, true) := by
  intro ts
  induction ts with
  | nil => intro _; rfl
  | cons t ts ih =>
    intro h
    have ht := h t (List.mem_cons_self t ts)
    have hts := fun u hu => h u (List.mem_cons_of_mem t hu)
    simp [createEntities, ht, ih hts]

/-! ## Claims -/

/-- Claim C8 (confirmed): for every publish cycle, the published GPS
heading is the polled yaw minus 90 degrees; in particular yaw 90 gives
heading 0, and yaw 0 gives heading −90. -/
theorem c8_heading_is_yaw_minus_90 (k : VehicleKinematics) (s : BridgeState) :
    (publish_vehicle_data k s).2.gps.heading = k.rotation.yaw - 90 ∧
    (k.rotation.yaw = 90 → (publish_vehicle_data k s).2.gps.heading = 0) ∧
    (k.rotation.yaw = 0 → (publish_vehicle_data k s).2.gps.heading = -90) := by
  refine ⟨rfl, ?_, ?_⟩ <;> intro h <;>
    simp [publish_vehicle_data, update_vehicle_state_info, get_lidar_data,
      get_gps_data, get_odom_data, get_velocity_data, get_imu_data,
      get_position_data, h]

/-- Witness for C8 at the spec scenario's kinematics: yaw 90 yields
heading 0. -/
theorem c8_heading_witness :
    kSample.rotation.yaw = 90 ∧
    (publish_vehicle_data kSample initialState).2.gps.heading = 0 :=
  ⟨rfl, (c8_heading_is_yaw_minus_90 kSample initialState).2.1 rfl⟩

/-- Claim C5 (confirmed): in every publish cycle the Velocity output's
angular velocity is the polled kinematics angular velocity — the last of
the two assignments in `get_velocity_data` wins over the IMU sample's
angular velocity — and its linear velocity is the polled kinematics linear
velocity. -/
theorem c5_velocity_from_kinematics (k : VehicleKinematics) (s : BridgeState) :
    (publish_vehicle_data k s).2.velocity.angular_velocity
      = k.angular_velocity ∧
    (publish_vehicle_data k s).2.velocity.linear_velocity = k.velocity :=
  ⟨rfl, rfl⟩

/-- Claim C2, amended (the claim that all six outputs share the snapshot
header is false): Odometry, Velocity and Position carry the shared
`header`; the PointCloud output carries the stored LiDAR sample's header
(equal to the shared header after any LiDAR delivery, by aliasing); the
GPS output carries the GNSS sample's own header and the IMU output the IMU
sample's own header. -/
theorem c2_output_headers_by_source (k : VehicleKinematics)
    (s : BridgeState) :
    ((publish_vehicle_data k s).2.odom.header = s.header ∧
     (publish_vehicle_data k s).2.velocity.header = s.header ∧
     (publish_vehicle_data k s).2.position.header = s.header) ∧
    ((publish_vehicle_data k s).2.lidar.header = s.carla_lidar_data.header ∧
     (publish_vehicle_data k s).2.gps.header = s.carla_gnss_data.header ∧
     (publish_vehicle_data k s).2.imu.header = s.carla_imu_data.header) ∧
    (∀ m : PointCloud2,
      (update_carla_lidar_data s m).carla_lidar_data.header
        = (update_carla_lidar_data s m).header) :=
  ⟨⟨rfl, rfl, rfl⟩, ⟨rfl, rfl, rfl⟩, fun _ => rfl⟩

/-- Counterexample to claim C2 as stated: after a LiDAR sample with stamp 7
and a GNSS sample with stamp 5, one publish cycle emits a GPS message
stamped 5 and an Odometry message stamped 7 — the six outputs do not share
one header stamp. -/
theorem c2_counterexample_stamps_differ :
    (publish_vehicle_data kSample sThree).2.gps.header.stamp = 5 ∧
    (publish_vehicle_data kSample sThree).2.odom.header.stamp = 7 ∧
    (publish_vehicle_data kSample sThree).2.gps.header.stamp ≠
      (publish_vehicle_data kSample sThree).2.odom.header.stamp := by
  refine ⟨rfl, rfl, ?_⟩
  decide

/-- Claim C3, amended (byte-identical pass-through is false): the
PointCloud published by the cycle following a LiDAR delivery is the
received sample with its header's `frame_id` replaced by `"odom"`; the
point buffer and stamp are unchanged, and the output equals the received
sample exactly when the sample already carried `frame_id = "odom"`. -/
theorem c3_lidar_passthrough_modulo_frame (s : BridgeState)
    (m : PointCloud2) (k : VehicleKinematics) :
    (publish_vehicle_data k (update_carla_lidar_data s m)).2.lidar
      = lidarMessageAfterHandler m ∧
    (publish_vehicle_data k (update_carla_lidar_data s m)).2.lidar.data
      = m.data ∧
    (publish_vehicle_data k (update_carla_lidar_data s m)).2.lidar.header.stamp
      = m.header.stamp ∧
    (publish_vehicle_data k
        (update_carla_lidar_data s m)).2.lidar.header.frame_id = "odom" ∧
    (m.header.frame_id = "odom" →
      (publish_vehicle_data k (update_carla_lidar_data s m)).2.lidar = m) := by
  refine ⟨rfl, rfl, rfl, rfl, ?_⟩
  intro h
  obtain ⟨⟨stamp, fid⟩, data⟩ := m
  simp only [Header.frame_id] at h
  subst h
  rfl

/-- Witness for C3's amended special case: a sample already in the `"odom"`
frame is republished byte-identically. -/
theorem c3_passthrough_witness :
    mOdomFrame.header.frame_id = "odom" ∧
    (publish_vehicle_data kSample
        (update_carla_lidar_data initialState mOdomFrame)).2.lidar
      = mOdomFrame :=
  ⟨rfl,
   (c3_lidar_passthrough_modulo_frame initialState mOdomFrame
      kSample).2.2.2.2 rfl⟩

/-- Counterexample to claim C3 as stated: a sample received with
`frame_id = "velodyne"` is not republished byte-identically — the handler
rewrote its frame id. -/
theorem c3_counterexample_not_byte_identical :
    (publish_vehicle_data kSample
        (update_carla_lidar_data initialState mVelodyne)).2.lidar
      ≠ mVelodyne := by
  decide

/-- Claim C4, amended (not every handler leaves the message untouched): the
GNSS and IMU handlers store the received message without modifying it; the
LiDAR handler stores the received message after mutating its header's
`frame_id` to `"odom"` in place (through the `self.header` alias), leaving
the point buffer and stamp unchanged. -/
theorem c4_handler_store_effects (s : BridgeState) (mg : NavSatFix)
    (mi : Imu) (ml : PointCloud2) :
    (update_carla_gnss_data s mg).carla_gnss_data = mg ∧
    (update_carla_imu_data s mi).carla_imu_data = mi ∧
    (update_carla_lidar_data s ml).carla_lidar_data
      = lidarMessageAfterHandler ml ∧
    (lidarMessageAfterHandler ml).data = ml.data ∧
    (lidarMessageAfterHandler ml).header.stamp = ml.header.stamp ∧
    (lidarMessageAfterHandler ml).header.frame_id = "odom" :=
  ⟨rfl, rfl, rfl, rfl, rfl, rfl⟩

/-- Counterexample to claim C4 as stated: after the LiDAR handler returns,
the received message object (whose header the handler mutated in place) no
longer equals the message as it arrived with `frame_id = "base_link"`. -/
theorem c4_counterexample_lidar_mutates :
    lidarMessageAfterHandler mBase ≠ mBase ∧
    (update_carla_lidar_data initialState mBase).carla_lidar_data
      ≠ mBase := by
  refine ⟨?_, ?_⟩ <;> decide

/-- Claim C6, amended (last-write-wins, with the LiDAR store mutated): for
every finite interleaving of deliveries, the stored GNSS and IMU samples
equal the most recent corresponding write verbatim, the stored LiDAR
sample equals the most recent LiDAR write with its frame id rewritten to
`"odom"`, and each handler leaves the other two streams' stored samples
unchanged — no merging. -/
theorem c6_last_write_wins (s : BridgeState) (es : List InputEvent)
    (mg : NavSatFix) (mi : Imu) (ml : PointCloud2) :
    (runEvents s es).carla_gnss_data
      = (lastGnssWrite es).getD s.carla_gnss_data ∧
    (runEvents s es).carla_imu_data
      = (lastImuWrite es).getD s.carla_imu_data ∧
    (runEvents s es).carla_lidar_data
      = ((lastLidarWrite es).map lidarMessageAfterHandler).getD
          s.carla_lidar_data ∧
    ((update_carla_gnss_data s mg).carla_lidar_data = s.carla_lidar_data ∧
     (update_carla_gnss_data s mg).carla_imu_data = s.carla_imu_data) ∧
    ((update_carla_imu_data s mi).carla_lidar_data = s.carla_lidar_data ∧
     (update_carla_imu_data s mi).carla_gnss_data = s.carla_gnss_data) ∧
    ((update_carla_lidar_data s ml).carla_gnss_data = s.carla_gnss_data ∧
     (update_carla_lidar_data s ml).carla_imu_data = s.carla_imu_data) :=
  ⟨runEvents_gnss es s, runEvents_imu es s, runEvents_lidar es s,
   ⟨rfl, rfl⟩, ⟨rfl, rfl⟩, ⟨rfl, rfl⟩⟩

/-- Counterexample to claim C6 as stated: after a single LiDAR delivery the
stored LiDAR field does not equal the delivered sample — its frame id was
rewritten — so "each stored stream field equals the most recent write"
fails verbatim for the LiDAR stream. -/
theorem c6_counterexample_stored_differs :
    (runEvents initialState [InputEvent.lidar mTop]).carla_lidar_data
      ≠ mTop := by
  decide

/-- Claim C7, amended (value-freshness holds, object-freshness does not):
the six outputs of a cycle are determined by that cycle's snapshot fields
(shared header and the three stored samples) and the polled kinematics
alone — two states agreeing on those produce identical batches, whatever
earlier cycles left in the output attributes. -/
theorem c7_outputs_function_of_snapshot (k : VehicleKinematics)
    (s₁ s₂ : BridgeState)
    (hh : s₁.header = s₂.header)
    (hl : s₁.carla_lidar_data = s₂.carla_lidar_data)
    (hg : s₁.carla_gnss_data = s₂.carla_gnss_data)
    (hi : s₁.carla_imu_data = s₂.carla_imu_data) :
    (publish_vehicle_data k s₁).2 = (publish_vehicle_data k s₂).2 := by
  obtain ⟨h₁, l₁, g₁, i₁, _, _, _, _, _, _, _, _, _, _⟩ := s₁
  obtain ⟨h₂, l₂, g₂, i₂, _, _, _, _, _, _, _, _, _, _⟩ := s₂
  simp only at hh hl hg hi
  subst hh hl hg hi
  rfl

/-- Witness for C7's amended theorem: a state carrying a leftover GPS
output with heading 42 publishes the same batch as the pristine state. -/
theorem c7_outputs_witness :
    (publish_vehicle_data kSample initialState).2
      = (publish_vehicle_data kSample sAltered).2 :=
  c7_outputs_function_of_snapshot kSample initialState sAltered
    rfl rfl rfl rfl

/-- Counterexample to claim C7 as stated ("never retained between
cycles"): the builders write the outputs into the node's own message
attributes, so after a cycle the post-state still holds the published GPS
message — the batch is retained in state, not produced into fresh
unretained objects. -/
theorem c7_counterexample_outputs_retained :
    (publish_vehicle_data kYaw40 initialState).1.gps_data
      = (publish_vehicle_data kYaw40 initialState).2.gps ∧
    (publish_vehicle_data kYaw40 initialState).1.gps_data
      ≠ initialState.gps_data := by
  refine ⟨rfl, ?_⟩
  decide

/-- Claim C1, amended (fail-fast construction with `ConfigurationError` is
false): `check_config` — the repository's only validation, and never
called during construction — returns `true` exactly when every required
key is present with a Python-truthy value, so absence and zero fail it but
a negative (non-positive) `loop_rate` passes; `__init__` itself performs
no validation: whenever the three subscription topics are acceptable the
first three construction steps are the subscriptions, regardless of any
later missing key, and with all topics acceptable and a numeric
`loop_rate` construction completes. -/
theorem c1_validation_and_construction (c : Config) :
    (check_config c = true ↔
      ∀ t ∈ required_topics,
        ∃ v, configGet c t = some v ∧ v.truthy = true) ∧
    ((∀ t ∈ subTopicKeys, validTopicValue (configGet c t) = true) →
      ∃ rest, (vehicleInfoPublisherInit c).1
        = subTopicKeys.map InitStep.subscription ++ rest) ∧
    ((∀ t ∈ subTopicKeys, validTopicValue (configGet c t) = true) →
      (∀ t ∈ pubTopicKeys, validTopicValue (configGet c t) = true) →
      ∀ q : ℚ, configGet c "loop_rate" = some (ConfigValue.num q) →
        (vehicleInfoPublisherInit c).2 = true) := by
  refine ⟨?_, ?_, ?_⟩
  · simp only [check_config, List.all_eq_true]
    constructor
    · intro h t ht
      have hm := h t ht
      cases hc : configGet c t with
      | none => rw [hc] at hm; exact absurd hm (by simp)
      | some v => rw [hc] at hm; exact ⟨v, rfl, hm⟩
    · intro h t ht
      obtain ⟨v, hv, htr⟩ := h t ht
      rw [hv]
      exact htr
  · intro h
    simp only [vehicleInfoPublisherInit]
    rw [createEntities_all_valid c InitStep.subscription subTopicKeys h]
    rcases hpe : createEntities c InitStep.publisher pubTopicKeys with
      ⟨steps, ok⟩
    cases ok with
    | false => exact ⟨steps, rfl⟩
    | true =>
      cases hc : configGet c "loop_rate" with
      | none => exact ⟨steps, rfl⟩
      | some v =>
        cases v with
        | num q => exact ⟨steps ++ [InitStep.timerStart], by
            simp [List.append_assoc]⟩
        | str str0 => exact ⟨steps, rfl⟩
  · intro hs hp q hq
    simp only [vehicleInfoPublisherInit]
    rw [createEntities_all_valid c InitStep.subscription subTopicKeys hs,
      createEntities_all_valid c InitStep.publisher pubTopicKeys hp, hq]
    rfl

/-- Witness for C1's amended theorem: the fully valid configuration passes
`check_config` and construction completes. -/
theorem c1_witness_full_config :
    (vehicleInfoPublisherInit cfgFull).2 = true :=
  (c1_validation_and_construction cfgFull).2.2 (by decide) (by decide)
    1 (by decide)

/-- Counterexample to claim C1 as stated: the configuration with
`loop_rate = -1` (present, non-positive) passes the repository's
validation, and the configuration missing `gps_pub_topic` reaches
construction failure only after the GNSS subscription (and the other two)
were already created — construction neither fails on non-positive values
nor fails before any subscription exists, and no `ConfigurationError` is
raised anywhere. -/
theorem c1_counterexample_no_failfast :
    check_config cfgNegRate = true ∧
    (vehicleInfoPublisherInit cfgNoGpsPub).2 = false ∧
    InitStep.subscription "gnss_sub_topic"
      ∈ (vehicleInfoPublisherInit cfgNoGpsPub).1 := by
  refine ⟨?_, ?_, ?_⟩ <;> decide

/-- Claim C9, amended (discard-and-retain recovery does not exist): the
GNSS and IMU handlers perform no validation at all — they store any
arriving sample, malformed or not, unconditionally over the prior value
(and log only at debug level) without raising; the LiDAR handler raises
(`AttributeError`) on a sample missing its header instead of discarding
it. -/
theorem c9_no_malformed_recovery :
    (∀ stored m : NavSatFixRaw,
      update_carla_gnss_data_raw stored m = Except.ok m) ∧
    (∀ stored m : ImuRaw,
      update_carla_imu_data_raw stored m = Except.ok m) ∧
    (∀ m : PointCloud2Raw, m.header = none →
      update_carla_lidar_data_raw m = Except.error ()) := by
  refine ⟨fun _ _ => rfl, fun _ _ => rfl, fun m h => ?_⟩
  simp [update_carla_lidar_data_raw, h]

/-- Witness for C9's amended theorem: the header-less point cloud makes the
LiDAR handler raise. -/
theorem c9_witness_lidar_raises :
    pcNoHeader.header = none ∧
    update_carla_lidar_data_raw pcNoHeader = Except.error () :=
  ⟨rfl, c9_no_malformed_recovery.2.2 pcNoHeader rfl⟩

/-- Counterexample to claim C9 as stated: the GNSS handler, given the
sample with every expected sub-field missing, stores it — the previously
stored well-formed value is lost rather than retained — and the LiDAR
handler propagates an error on a header-less sample rather than
discarding it. -/
theorem c9_counterexample_malformed_stored :
    update_carla_gnss_data_raw gnssPrior gnssBad = Except.ok gnssBad ∧
    gnssBad ≠ gnssPrior ∧
    update_carla_lidar_data_raw pcNoHeader = Except.error () := by
  refine ⟨rfl, by decide, rfl⟩

/-- Claim C10, amended (idempotence and partial-construction safety fail):
on a node whose six publisher attributes exist, `cleanup` cancels the
timer (when the attribute exists) and calls `destroy()` once more on every
publisher each time it runs — a second call repeats every release effect —
and on a node whose construction never assigned a publisher attribute it
raises `AttributeError`; only the timer attribute is guarded. -/
theorem c10_cleanup_effects :
    (∀ r : BridgeResources,
      r.lidar_pub.isSome = true → r.gps_pub.isSome = true →
      r.odom_pub.isSome = true → r.velocity_pub.isSome = true →
      r.imu_pub.isSome = true → r.position_pub.isSome = true →
      cleanup r = Except.ok
        { timer := r.timer.map cancelTimer,
          lidar_pub := r.lidar_pub.map destroyPub,
          gps_pub := r.gps_pub.map destroyPub,
          odom_pub := r.odom_pub.map destroyPub,
          velocity_pub := r.velocity_pub.map destroyPub,
          imu_pub := r.imu_pub.map destroyPub,
          position_pub := r.position_pub.map destroyPub }) ∧
    (∀ r : BridgeResources, r.lidar_pub = none →
      cleanup r = Except.error ()) := by
  constructor
  · intro r h1 h2 h3 h4 h5 h6
    obtain ⟨t, lp, gp, op, vp, ip, pp⟩ := r
    simp only at h1 h2 h3 h4 h5 h6
    obtain ⟨a, ha⟩ := Option.isSome_iff_exists.mp h1
    obtain ⟨b, hb⟩ := Option.isSome_iff_exists.mp h2
    obtain ⟨cc, hc⟩ := Option.isSome_iff_exists.mp h3
    obtain ⟨d, hd⟩ := Option.isSome_iff_exists.mp h4
    obtain ⟨e, he⟩ := Option.isSome_iff_exists.mp h5
    obtain ⟨f, hf⟩ := Option.isSome_iff_exists.mp h6
    subst ha hb hc hd he hf
    cases t <;> rfl
  · intro r h
    obtain ⟨t, lp, gp, op, vp, ip, pp⟩ := r
    simp only at h
    subst h
    cases t <;> rfl

/-- Witness for C10's amended theorem: one `cleanup` on the fully
constructed node succeeds and touches every handle once. -/
theorem c10_cleanup_witness :
    cleanup rFull = Except.ok
      { timer := rFull.timer.map cancelTimer,
        lidar_pub := rFull.lidar_pub.map destroyPub,
        gps_pub := rFull.gps_pub.map destroyPub,
        odom_pub := rFull.odom_pub.map destroyPub,
        velocity_pub := rFull.velocity_pub.map destroyPub,
        imu_pub := rFull.imu_pub.map destroyPub,
        position_pub := rFull.position_pub.map destroyPub } :=
  c10_cleanup_effects.1 rFull rfl rfl rfl rfl rfl rfl

/-- Counterexample to claim C10 as stated: calling `cleanup` twice on the
fully constructed node cancels the timer and destroys every publisher a
second time (duplicate release effects), and calling it on the partially
constructed node — timer assigned, no publisher attribute — raises instead
of returning cleanly. -/
theorem c10_counterexample_duplicate_and_unsafe :
    cleanup rFull = Except.ok rOnce ∧
    cleanup rOnce = Except.ok
      { timer := some { cancel_calls := 2 },
        lidar_pub := some { destroy_calls := 2 },
        gps_pub := some { destroy_calls := 2 },
        odom_pub := some { destroy_calls := 2 },
        velocity_pub := some { destroy_calls := 2 },
        imu_pub := some { destroy_calls := 2 },
        position_pub := some { destroy_calls := 2 } } ∧
    cleanup rHalfBuilt = Except.error () :=
  ⟨rfl, rfl, rfl⟩

end CarlaBridge
